import Mathlib

/-!
Verification of the key-agreement core of the zcrypto TLS library
(`tls/key_agreement.go`, `ecdh/ecdh.go`).

Byte strings on the wire are modelled as `List Nat` (each entry a byte value
below 256).  Go `*big.Int` values are modelled as `Nat` (they are always
non-negative here; `nil` pointers become `Option Nat`).  Calls into external
cryptographic libraries (`crypto/rsa`, `crypto/ecdsa`, the `ecdh` curve
implementations) are modelled as explicit oracle parameters, since their
bodies are not part of this repository.
-/

namespace ZTLS

/-- Big-endian interpretation of a byte string as a natural number, as Go's
`big.Int.SetBytes` does. -/
def bytesToNat (bs : List Nat) : Nat :=
  bs.foldl (fun acc b => acc * 256 + b) 0

/-- The recursion of `natToBytesBE`, structurally on a fuel argument so that
it is kernel-computable.  One base-256 digit is produced per step; since a
positive `n` has at most `n` digits, fuel `n` suffices and the
out-of-fuel branch is unreachable in `natToBytesBE`. -/
def natToBytesBEAux : Nat → Nat → List Nat
  | _, 0 => []
  | 0, _ + 1 => []
  | fuel + 1, n + 1 =>
    natToBytesBEAux fuel ((n + 1) / 256) ++ [(n + 1) % 256]

/-- Minimal big-endian serialization of a natural number, as Go's
`big.Int.Bytes` does: the empty string for zero, and no leading zero byte
otherwise. -/
def natToBytesBE (n : Nat) : List Nat := natToBytesBEAux n n

/-- Go's `int(b0)<<8 | int(b1)` for two wire bytes (each below 256). -/
def uint16BE (b0 b1 : Nat) : Nat := b0 * 256 + b1

/-- `VersionSSL30 = 0x0300` (spec §6). -/
def VersionSSL30 : Nat := 0x0300

/-- `VersionTLS12 = 0x0303` (spec §6). -/
def VersionTLS12 : Nat := 0x0303

/-- `errClientKeyExchange` from `key_agreement.go`. -/
def errClientKeyExchange : String := "tls: invalid ClientKeyExchange message"

/-- `errServerKeyExchange` from `key_agreement.go`. -/
def errServerKeyExchange : String := "tls: invalid ServerKeyExchange message"

/-- The two-octet TLS 1.2 SignatureAndHashAlgorithm encoding. -/
structure signatureAndHash where
  hash : Nat
  signature : Nat
deriving DecidableEq, Repr

/-- Modelled from the spec: hash identifier SHA1 = 2 (spec §6; the constant
`hashSHA1` is declared outside the provided sources). -/
def hashSHA1 : Nat := 2

/-- Modelled from the spec: `isSupportedSignatureAndHash` (declared outside
the provided sources) checks that the given (signature, hash) pair is present
in the given list of supported pairs. -/
def isSupportedSignatureAndHash (sh : signatureAndHash)
    (l : List signatureAndHash) : Bool :=
  l.contains sh

/-- The client-order scan inside `pickTLS12HashForSignature`
(`key_agreement.go` lines 305-314): skip entries whose signature differs from
`sigType`, return the hash of the first remaining entry supported by the
server, and fail if none is. -/
def pickTLS12HashLoop (sigType : Nat) (serverList : List signatureAndHash) :
    List signatureAndHash → Except String Nat
  | [] => .error "tls: client doesn't support any common hash functions"
  | sh :: rest =>
    if sh.signature = sigType then
      if isSupportedSignatureAndHash sh serverList then .ok sh.hash
      else pickTLS12HashLoop sigType serverList rest
    else pickTLS12HashLoop sigType serverList rest

/-- `pickTLS12HashForSignature` (`key_agreement.go` lines 297-315): SHA-1 when
the client advertised no list, otherwise the first client-preferred hash whose
signature matches and which the server supports. -/
def pickTLS12HashForSignature (sigType : Nat)
    (clientList serverList : List signatureAndHash) : Except String Nat :=
  if clientList.length = 0 then .ok hashSHA1
  else pickTLS12HashLoop sigType serverList clientList

lemma pickTLS12HashLoop_error_iff (sigType : Nat)
    (serverList l : List signatureAndHash) :
    (∀ sh ∈ l, ¬(sh.signature = sigType ∧ sh ∈ serverList)) ↔
      pickTLS12HashLoop sigType serverList l =
        .error "tls: client doesn't support any common hash functions" := by
  induction l with
  | nil => simp [pickTLS12HashLoop]
  | cons sh rest ih =>
    by_cases hsig : sh.signature = sigType
    · by_cases hsup : isSupportedSignatureAndHash sh serverList
      · have hmem : sh ∈ serverList := by
          simpa [isSupportedSignatureAndHash, List.contains, List.elem_iff] using hsup
        simp only [pickTLS12HashLoop, if_pos hsig, if_pos hsup]
        constructor
        · intro h
          exact absurd ⟨hsig, hmem⟩ (h sh (List.mem_cons_self sh rest))
        · intro h
          exact absurd h (by simp)
      · have hmem : sh ∉ serverList := by
          simpa [isSupportedSignatureAndHash, List.contains, List.elem_iff] using hsup
        simp only [pickTLS12HashLoop, if_pos hsig, if_neg hsup]
        constructor
        · intro h
          exact ih.mp fun x hx => h x (by simp [hx])
        · intro h x hx
          rcases List.mem_cons.mp hx with rfl | hx'
          · rintro ⟨-, hc⟩; exact hmem hc
          · exact (ih.mpr h) x hx'
    · simp only [pickTLS12HashLoop, if_neg hsig]
      constructor
      · intro h
        exact ih.mp fun x hx => h x (by simp [hx])
      · intro h x hx
        rcases List.mem_cons.mp hx with rfl | hx'
        · rintro ⟨hc, -⟩; exact hsig hc
        · exact (ih.mpr h) x hx'

lemma pickTLS12HashLoop_first (sigType : Nat)
    (serverList pre post : List signatureAndHash) (sh : signatureAndHash)
    (hsig : sh.signature = sigType) (hmem : sh ∈ serverList)
    (hpre : ∀ sh' ∈ pre, ¬(sh'.signature = sigType ∧ sh' ∈ serverList)) :
    pickTLS12HashLoop sigType serverList (pre ++ sh :: post) = .ok sh.hash := by
  induction pre with
  | nil =>
    have hsup : isSupportedSignatureAndHash sh serverList := by
      simpa [isSupportedSignatureAndHash, List.contains, List.elem_iff] using hmem
    simp [pickTLS12HashLoop, hsig, hsup]
  | cons x rest ih =>
    have hx := hpre x (by simp)
    by_cases hxsig : x.signature = sigType
    · have hxmem : x ∉ serverList := fun hc => hx ⟨hxsig, hc⟩
      have hxsup : ¬ isSupportedSignatureAndHash x serverList := by
        simpa [isSupportedSignatureAndHash, List.contains, List.elem_iff] using hxmem
      simp only [List.cons_append, pickTLS12HashLoop, if_pos hxsig, if_neg hxsup]
      exact ih fun y hy => hpre y (by simp [hy])
    · simp only [List.cons_append, pickTLS12HashLoop, if_neg hxsig]
      exact ih fun y hy => hpre y (by simp [hy])

/-- **C6.** `pickTLS12HashForSignature(sigType, clientList, serverList)`
returns SHA-1 when `clientList` is empty; otherwise it returns the hash of
the first element of `clientList` (in client order) whose signature field
equals `sigType` and whose pair is contained in `serverList`; and it returns
the no-common-hash error exactly when no such element exists. -/
theorem pickTLS12HashForSignature_spec (sigType : Nat)
    (clientList serverList : List signatureAndHash) :
    (clientList = [] →
      pickTLS12HashForSignature sigType clientList serverList = .ok hashSHA1) ∧
    (clientList ≠ [] →
      ((∀ sh ∈ clientList, ¬(sh.signature = sigType ∧ sh ∈ serverList)) ↔
        pickTLS12HashForSignature sigType clientList serverList =
          .error "tls: client doesn't support any common hash functions") ∧
      (∀ pre post (sh : signatureAndHash), clientList = pre ++ sh :: post →
        sh.signature = sigType → sh ∈ serverList →
        (∀ sh' ∈ pre, ¬(sh'.signature = sigType ∧ sh' ∈ serverList)) →
        pickTLS12HashForSignature sigType clientList serverList = .ok sh.hash)) := by
  constructor
  · intro h
    subst h
    simp [pickTLS12HashForSignature]
  · intro hne
    have hlen : clientList.length ≠ 0 := by
      simpa [List.length_eq_zero] using hne
    constructor
    · simpa [pickTLS12HashForSignature, hlen] using
        pickTLS12HashLoop_error_iff sigType serverList clientList
    · intro pre post sh hdecomp hsig hmem hpre
      subst hdecomp
      simpa [pickTLS12HashForSignature, hlen] using
        pickTLS12HashLoop_first sigType serverList pre post sh hsig hmem hpre

/-- Witness for C6: the spec's seed scenario 5.  Client list
`[(SHA1,RSA),(SHA256,RSA)]`, server list `[(SHA256,RSA),(SHA384,RSA)]`,
signature type RSA (=1): the picker returns SHA-256 (=4). -/
theorem pickTLS12HashForSignature_spec_witness :
    pickTLS12HashForSignature 1 [⟨2, 1⟩, ⟨4, 1⟩] [⟨4, 1⟩, ⟨5, 1⟩] = .ok 4 :=
  (pickTLS12HashForSignature_spec 1 [⟨2, 1⟩, ⟨4, 1⟩] [⟨4, 1⟩, ⟨5, 1⟩]).2
    (by decide) |>.2 [⟨2, 1⟩] [] ⟨4, 1⟩ rfl rfl (by decide) (by decide)

/-! ## RSA key agreement (`rsaKeyAgreement`, `key_agreement.go` lines 31-197) -/

/-- State of `rsaKeyAgreement` (the RSA private key is held only by the
external `crypto/rsa` library, so it is not part of the model; `publicKey`
holds the pair `(N, E)` or `none` for a nil pointer). -/
structure rsaKeyAgreement where
  version : Nat
  clientVersion : Nat
  ephemeral : Bool
  publicKey : Option (Nat × Nat)
  verifyError : Option String

/-- Behaviour of one call to the external library function
`rsa.DecryptPKCS1v15SessionKey` on a given ciphertext: a structural error
(ciphertext of impossible length), a padding failure (no error is reported
and the key buffer is left untouched), or a successful decryption yielding a
session key. -/
inductive RSADecryptOutcome where
  | structuralError (e : String)
  | paddingFailure
  | success (sessionKey : List Nat)

/-- `rsa.DecryptPKCS1v15SessionKey` as documented by the Go standard library:
on a structural error, the error is returned; on a padding failure, or when
the recovered session key does not have the length of `key`, `key` is left
unmodified and no error is returned; otherwise `key` is overwritten with the
session key. -/
def decryptPKCS1v15SessionKey (outcome : RSADecryptOutcome) (key : List Nat) :
    Except String (List Nat) :=
  match outcome with
  | .structuralError e => .error e
  | .paddingFailure => .ok key
  | .success sk => if sk.length = key.length then .ok sk else .ok key

/-- `rsaKeyAgreement.processClientKeyExchange` (`key_agreement.go` lines
75-111).  `rng46` is the 46-byte string drawn from `config.rand()` into
`preMasterSecret[2:]`; `outcome` describes the external RSA decryption. -/
def rsaProcessClientKeyExchange (ka : rsaKeyAgreement) (rng46 : List Nat)
    (outcome : RSADecryptOutcome) (ckxCiphertext : List Nat) :
    Except String (List Nat) :=
  let preMasterSecret := [0, 0] ++ rng46
  if ckxCiphertext.length < 2 then .error errClientKeyExchange
  else
    if ka.version ≠ VersionSSL30 then
      if uint16BE (ckxCiphertext.headD 0) (ckxCiphertext.getD 1 0) ≠
          ckxCiphertext.length - 2 then
        .error errClientKeyExchange
      else decryptPKCS1v15SessionKey outcome preMasterSecret
    else decryptPKCS1v15SessionKey outcome preMasterSecret

/-- **C1.** Whenever the wire-format checks of
`rsaKeyAgreement.processClientKeyExchange` pass (at least 2 bytes; for
versions other than SSL 3.0 the 16-bit length prefix equals the remaining
length), a padding failure of the RSA decryption is not reported: the
operation returns, without error, the 48-byte buffer whose last 46 bytes are
the bytes drawn from the caller-supplied RNG. -/
theorem rsaProcessClientKeyExchange_bleichenbacher (ka : rsaKeyAgreement)
    (rng46 ct : List Nat) (hrng : rng46.length = 46) (hlen : 2 ≤ ct.length)
    (hpfx : ka.version ≠ VersionSSL30 →
      uint16BE (ct.headD 0) (ct.getD 1 0) = ct.length - 2) :
    rsaProcessClientKeyExchange ka rng46 .paddingFailure ct =
      .ok ([0, 0] ++ rng46) ∧
    ([0, 0] ++ rng46).length = 48 ∧ ([0, 0] ++ rng46).drop 2 = rng46 := by
  refine ⟨?_, by simp [hrng], by simp⟩
  have hlen' : ¬ ct.length < 2 := by omega
  by_cases hv : ka.version = VersionSSL30
  · simp [rsaProcessClientKeyExchange, hlen', hv, decryptPKCS1v15SessionKey]
  · simp only [rsaProcessClientKeyExchange, if_neg hlen', if_pos hv,
      decryptPKCS1v15SessionKey]
    rw [if_neg (by simp only [ne_eq, not_not]; exact hpfx hv)]

/-- Witness for C1: TLS 1.2 key agreement, ciphertext `[0x00, 0x00]` (length
prefix 0, empty RSA ciphertext), RNG bytes all `0xAB`. -/
theorem rsaProcessClientKeyExchange_bleichenbacher_witness :
    rsaProcessClientKeyExchange ⟨0x0303, 0, false, none, none⟩
        (List.replicate 46 0xAB) .paddingFailure [0, 0] =
      .ok ([0, 0] ++ List.replicate 46 0xAB) ∧
    ([0, 0] ++ List.replicate 46 0xAB).length = 48 ∧
    ([0, 0] ++ List.replicate 46 0xAB).drop 2 = List.replicate 46 0xAB :=
  rsaProcessClientKeyExchange_bleichenbacher ⟨0x0303, 0, false, none, none⟩
    (List.replicate 46 0xAB) [0, 0] (by decide) (by decide) (by decide)

/-- `rsaKeyAgreement.generateClientKeyExchange` (`key_agreement.go` lines
162-197).  `rng46` is the RNG string for `preMasterSecret[2:]`; `certPub` is
the server certificate's public key when it is an RSA key; `encrypt` is the
external `rsa.EncryptPKCS1v15` call.  Returns the pre-master secret and the
`ClientKeyExchange` ciphertext. -/
def rsaGenerateClientKeyExchange (ka : rsaKeyAgreement) (clientVers : Nat)
    (rng46 : List Nat) (certPub : Option (Nat × Nat))
    (encrypt : List Nat → Except String (List Nat)) :
    Except String (List Nat × List Nat) :=
  let preMasterSecret :=
    [clientVers / 256 % 256, clientVers % 256] ++ rng46
  let publicKey :=
    match ka.publicKey with
    | some k => some k
    | none => certPub
  match publicKey with
  | none => .error errClientKeyExchange
  | some _ =>
    match encrypt preMasterSecret with
    | .error e => .error e
    | .ok encrypted =>
      let ciphertext :=
        if ka.version ≠ VersionSSL30 then
          [encrypted.length / 256 % 256, encrypted.length % 256] ++ encrypted
        else encrypted
      .ok (preMasterSecret, ciphertext)

/-- **C9.** `rsaKeyAgreement.generateClientKeyExchange` returns a 48-byte
pre-master secret whose first two bytes are the client's advertised version
in big-endian order and whose remaining 46 bytes come from the RNG; the
ClientKeyExchange ciphertext is the RSA-PKCS1v15 encryption of that buffer,
prefixed by its 16-bit big-endian length exactly when the negotiated version
is not SSL 3.0. -/
theorem rsaGenerateClientKeyExchange_spec (ka : rsaKeyAgreement)
    (vers : Nat) (rng46 encBytes : List Nat) (certPub : Option (Nat × Nat))
    (encrypt : List Nat → Except String (List Nat))
    (hvers : vers < 65536) (hrng : rng46.length = 46)
    (hkey : ka.publicKey.isSome ∨ certPub.isSome)
    (henc : encrypt ([vers / 256, vers % 256] ++ rng46) = .ok encBytes) :
    rsaGenerateClientKeyExchange ka vers rng46 certPub encrypt =
      .ok ([vers / 256, vers % 256] ++ rng46,
        if ka.version ≠ VersionSSL30 then
          [encBytes.length / 256 % 256, encBytes.length % 256] ++ encBytes
        else encBytes) ∧
    ([vers / 256, vers % 256] ++ rng46).length = 48 := by
  have hdiv : vers / 256 % 256 = vers / 256 :=
    Nat.mod_eq_of_lt (Nat.div_lt_of_lt_mul (by omega))
  refine ⟨?_, by simp [hrng]⟩
  unfold rsaGenerateClientKeyExchange
  rcases hka : ka.publicKey with - | k
  · rcases hc : certPub with - | c
    · rw [hka] at hkey; rw [hc] at hkey; simp at hkey
    · simp only [hka, hc, hdiv, henc]
  · simp only [hka, hdiv, henc]

/-- Witness for C9: TLS 1.2, advertised version `0x0301`, a stored server
public key, RNG bytes all `0x09`, and an encryption oracle returning
`[1, 2, 3]`. -/
theorem rsaGenerateClientKeyExchange_spec_witness :
    rsaGenerateClientKeyExchange ⟨0x0303, 0, false, some (35, 3), none⟩
        0x0301 (List.replicate 46 9) none (fun _ => .ok [1, 2, 3]) =
      .ok ([3, 1] ++ List.replicate 46 9, [0, 3, 1, 2, 3]) ∧
    (([0x0301 / 256, 0x0301 % 256] ++ List.replicate 46 9)).length = 48 := by
  have h := rsaGenerateClientKeyExchange_spec
    ⟨0x0303, 0, false, some (35, 3), none⟩ 0x0301 (List.replicate 46 9)
    [1, 2, 3] none (fun _ => .ok [1, 2, 3]) (by decide) (by decide)
    (Or.inl (by decide)) rfl
  exact ⟨by simpa using h.1, h.2⟩

/-! ## DHE key agreement (`dheKeyAgreement`, `key_agreement.go` lines 746-956) -/

/-- State of `dheKeyAgreement`; every `*big.Int` field becomes an
`Option Nat` (`none` is a nil pointer). -/
structure dheKeyAgreement where
  p : Option Nat
  g : Option Nat
  yTheirs : Option Nat
  yOurs : Option Nat
  xOurs : Option Nat
  yServer : Option Nat
  yClient : Option Nat
  verifyError : Option String
deriving DecidableEq, Repr

/-- `dheKeyAgreement.processClientKeyExchange` (`key_agreement.go` lines
793-807).  The function runs on server-side state, where
`generateServerKeyExchange` has set `p` and `xOurs`; `getD 0` stands for the
pointer dereference of those fields.  Returns the mutated state and the
pre-master secret or the error. -/
def dheProcessClientKeyExchange (ka : dheKeyAgreement) (ct : List Nat) :
    dheKeyAgreement × Except String (List Nat) :=
  if ct.length < 2 then (ka, .error errClientKeyExchange)
  else if uint16BE (ct.headD 0) (ct.getD 1 0) ≠ ct.length - 2 then
    (ka, .error errClientKeyExchange)
  else
    let yTheirs := bytesToNat (ct.drop 2)
    let ka1 := { ka with yClient := some yTheirs }
    if yTheirs = 0 ∨ ka.p.getD 0 ≤ yTheirs then
      (ka1, .error errClientKeyExchange)
    else
      (ka1, .ok (natToBytesBE (yTheirs ^ ka.xOurs.getD 0 % ka.p.getD 0)))

/-- **C5.** On a well-formed ClientKeyExchange (at least 2 bytes, 16-bit
length prefix equal to the remainder), `dheKeyAgreement.processClientKeyExchange`
rejects with `invalid ClientKeyExchange` exactly when the parsed `yTheirs` is
`≤ 0` (as a parsed non-negative integer: zero) or `≥ p`; otherwise the
pre-master secret is `yTheirs ^ x mod p` serialized as minimal big-endian
bytes, with no length prefix and no left-padding. -/
theorem dheProcessClientKeyExchange_spec (ka : dheKeyAgreement) (p x : Nat)
    (ct : List Nat) (hp : ka.p = some p) (hx : ka.xOurs = some x)
    (hlen : 2 ≤ ct.length)
    (hpfx : uint16BE (ct.headD 0) (ct.getD 1 0) = ct.length - 2) :
    ((dheProcessClientKeyExchange ka ct).2 = .error errClientKeyExchange ↔
      bytesToNat (ct.drop 2) = 0 ∨ p ≤ bytesToNat (ct.drop 2)) ∧
    (¬(bytesToNat (ct.drop 2) = 0 ∨ p ≤ bytesToNat (ct.drop 2)) →
      (dheProcessClientKeyExchange ka ct).2 =
        .ok (natToBytesBE (bytesToNat (ct.drop 2) ^ x % p))) := by
  have hlen' : ¬ ct.length < 2 := by omega
  have hkey : dheProcessClientKeyExchange ka ct =
      ({ ka with yClient := some (bytesToNat (ct.drop 2)) },
        if bytesToNat (ct.drop 2) = 0 ∨ p ≤ bytesToNat (ct.drop 2) then
          .error errClientKeyExchange
        else .ok (natToBytesBE (bytesToNat (ct.drop 2) ^ x % p))) := by
    unfold dheProcessClientKeyExchange
    rw [if_neg hlen', if_neg (fun hne => hne hpfx), hp, hx]
    simp only [Option.getD_some]
    by_cases hr : bytesToNat (ct.drop 2) = 0 ∨ p ≤ bytesToNat (ct.drop 2)
    · rw [if_pos hr, if_pos hr]
    · rw [if_neg hr, if_neg hr]
  rw [hkey]
  by_cases hr : bytesToNat (ct.drop 2) = 0 ∨ p ≤ bytesToNat (ct.drop 2)
  · rw [if_pos hr]
    exact ⟨⟨fun _ => hr, fun _ => rfl⟩, fun h => absurd hr h⟩
  · rw [if_neg hr]
    exact ⟨⟨fun h => absurd h (by simp), fun h => absurd h hr⟩, fun _ => rfl⟩

/-- Witness for C5: `p = 23`, `x = 5`, message `[0x00, 0x01, 0x02]`
(`yTheirs = 2`): accepted, pre-master secret `2^5 mod 23 = 9`. -/
theorem dheProcessClientKeyExchange_spec_witness :
    ((dheProcessClientKeyExchange
        ⟨some 23, some 5, none, none, some 5, none, none, none⟩
        [0, 1, 2]).2 = .error errClientKeyExchange ↔
      bytesToNat ([0, 1, 2].drop 2) = 0 ∨ 23 ≤ bytesToNat ([0, 1, 2].drop 2)) ∧
    (¬(bytesToNat ([0, 1, 2].drop 2) = 0 ∨ 23 ≤ bytesToNat ([0, 1, 2].drop 2)) →
      (dheProcessClientKeyExchange
        ⟨some 23, some 5, none, none, some 5, none, none, none⟩
        [0, 1, 2]).2 =
        .ok (natToBytesBE (bytesToNat ([0, 1, 2].drop 2) ^ 5 % 23))) :=
  dheProcessClientKeyExchange_spec
    ⟨some 23, some 5, none, none, some 5, none, none, none⟩ 23 5 [0, 1, 2]
    rfl rfl (by decide) (by decide)

/-- `dheKeyAgreement.processServerKeyExchange` (`key_agreement.go` lines
809-858).  `verify` is the `keyAgreementAuthentication.verifyParameters`
collaborator, returning a digest and an optional error; `insecure` is
`config.InsecureSkipVerify`.  Returns the mutated state together with the
result.  Note that the receiver is mutated field by field as parsing
proceeds, as in the source. -/
def dheProcessServerKeyExchange (insecure : Bool)
    (verify : List Nat → List Nat → List Nat × Option String)
    (ka : dheKeyAgreement) (skx : List Nat) :
    dheKeyAgreement × Except String Unit :=
  if skx.length < 2 then (ka, .error errServerKeyExchange)
  else
    let pLen := uint16BE (skx.headD 0) (skx.getD 1 0)
    let k1 := skx.drop 2
    if k1.length < pLen then (ka, .error errServerKeyExchange)
    else
      let pVal := bytesToNat (k1.take pLen)
      let ka1 := { ka with p := some pVal }
      let k2 := k1.drop pLen
      if k2.length < 2 then (ka1, .error errServerKeyExchange)
      else
        let gLen := uint16BE (k2.headD 0) (k2.getD 1 0)
        let k3 := k2.drop 2
        if k3.length < gLen then (ka1, .error errServerKeyExchange)
        else
          let ka2 := { ka1 with g := some (bytesToNat (k3.take gLen)) }
          let k4 := k3.drop gLen
          if k4.length < 2 then (ka2, .error errServerKeyExchange)
          else
            let yLen := uint16BE (k4.headD 0) (k4.getD 1 0)
            let k5 := k4.drop 2
            if k5.length < yLen then (ka2, .error errServerKeyExchange)
            else
              let yVal := bytesToNat (k5.take yLen)
              let ka3 := { ka2 with yTheirs := some yVal, yServer := some yVal }
              if yVal = 0 ∨ pVal ≤ yVal then (ka3, .error errServerKeyExchange)
              else
                let sig := k5.drop yLen
                let params := skx.take (skx.length - sig.length)
                let verr := (verify params sig).2
                let ka4 := { ka3 with verifyError := verr }
                (ka4, if insecure then .ok ()
                  else match verr with
                  | none => .ok ()
                  | some e => .error e)

/-- Counterexample for C3: the message `[0x00, 0x01, 0x05, 0x00]` parses
`p = 5` and is then truncated in the `g` length field.  The operation
returns `invalid ServerKeyExchange` as claimed, but the state is *not* left
unchanged: `ka.p` has already been overwritten (from `none` to `some 5`). -/
theorem dheProcessServerKeyExchange_partial_mutation_cex :
    (dheProcessServerKeyExchange false (fun _ _ => ([], none))
      ⟨none, none, none, none, none, none, none, none⟩ [0, 1, 5, 0]).2 =
      .error errServerKeyExchange ∧
    (dheProcessServerKeyExchange false (fun _ _ => ([], none))
      ⟨none, none, none, none, none, none, none, none⟩ [0, 1, 5, 0]).1.p =
      some 5 ∧
    some 5 ≠ (none : Option Nat) :=
  ⟨rfl, rfl, by decide⟩

/-- **C3 (amended).** On every malformed ServerKeyExchange — any truncation:
a header shorter than 2 bytes, a truncated `p` body, a truncated `g` length
field or body, or a truncated `y` length field or body —
`dheKeyAgreement.processServerKeyExchange` returns the
invalid-ServerKeyExchange error, but the state is rolled back only from the
failure point on: fields fully parsed before the truncation are already
overwritten (`p` once the `p` body parsed, then also `g`), while all later
fields (`g`, `yTheirs`, `yServer`, `verifyError` as applicable) keep their
previous values.  The three conjuncts cover the three mutation stages of a
parse failure. -/
theorem dheProcessServerKeyExchange_malformed (insecure : Bool)
    (verify : List Nat → List Nat → List Nat × Option String)
    (ka : dheKeyAgreement) (skx : List Nat) (pLen gLen yLen : Nat)
    (hp : pLen = uint16BE (skx.headD 0) (skx.getD 1 0))
    (hg : gLen = uint16BE (((skx.drop 2).drop pLen).headD 0)
      (((skx.drop 2).drop pLen).getD 1 0))
    (hy : yLen = uint16BE (((((skx.drop 2).drop pLen).drop 2).drop
        gLen).headD 0)
      (((((skx.drop 2).drop pLen).drop 2).drop gLen).getD 1 0)) :
    ((skx.length < 2 ∨ skx.length - 2 < pLen) →
      dheProcessServerKeyExchange insecure verify ka skx =
        (ka, .error errServerKeyExchange)) ∧
    (2 ≤ skx.length → pLen ≤ skx.length - 2 →
      (skx.length - 2 - pLen < 2 ∨ skx.length - 4 - pLen < gLen) →
      dheProcessServerKeyExchange insecure verify ka skx =
        ({ ka with p := some (bytesToNat ((skx.drop 2).take pLen)) },
          .error errServerKeyExchange)) ∧
    (2 ≤ skx.length → pLen ≤ skx.length - 2 → 2 ≤ skx.length - 2 - pLen →
      gLen ≤ skx.length - 4 - pLen →
      (skx.length - 4 - pLen - gLen < 2 ∨
        skx.length - 6 - pLen - gLen < yLen) →
      dheProcessServerKeyExchange insecure verify ka skx =
        ({ ka with
            p := some (bytesToNat ((skx.drop 2).take pLen)),
            g := some (bytesToNat
              ((((skx.drop 2).drop pLen).drop 2).take gLen)) },
          .error errServerKeyExchange)) := by
  refine ⟨?_, ?_, ?_⟩
  · intro h
    by_cases h1 : skx.length < 2
    · simp only [dheProcessServerKeyExchange, if_pos h1]
    · have h2 : (skx.drop 2).length <
          uint16BE (skx.headD 0) (skx.getD 1 0) := by
        simp only [List.length_drop]; omega
      simp only [dheProcessServerKeyExchange, if_neg h1, if_pos h2]
  · intro hl hpb h
    have h1 : ¬ skx.length < 2 := by omega
    have h2 : ¬ (skx.drop 2).length <
        uint16BE (skx.headD 0) (skx.getD 1 0) := by
      simp only [List.length_drop]; omega
    by_cases h3 : ((skx.drop 2).drop
        (uint16BE (skx.headD 0) (skx.getD 1 0))).length < 2
    · simp only [dheProcessServerKeyExchange, if_neg h1, if_neg h2,
        if_pos h3]
      rw [hp]
    · have h4 : (((skx.drop 2).drop
            (uint16BE (skx.headD 0) (skx.getD 1 0))).drop 2).length <
          uint16BE (((skx.drop 2).drop
              (uint16BE (skx.headD 0) (skx.getD 1 0))).headD 0)
            (((skx.drop 2).drop
              (uint16BE (skx.headD 0) (skx.getD 1 0))).getD 1 0) := by
        simp only [List.length_drop]
        simp only [List.length_drop] at h3
        rw [← hp] at h3 ⊢
        rw [← hg]
        omega
      simp only [dheProcessServerKeyExchange, if_neg h1, if_neg h2,
        if_neg h3, if_pos h4]
      rw [hp]
  · intro hl hpb hgl hgb h
    have h1 : ¬ skx.length < 2 := by omega
    have h2 : ¬ (skx.drop 2).length <
        uint16BE (skx.headD 0) (skx.getD 1 0) := by
      simp only [List.length_drop]; omega
    have h3 : ¬ ((skx.drop 2).drop
        (uint16BE (skx.headD 0) (skx.getD 1 0))).length < 2 := by
      simp only [List.length_drop]; omega
    have h4 : ¬ (((skx.drop 2).drop
          (uint16BE (skx.headD 0) (skx.getD 1 0))).drop 2).length <
        uint16BE (((skx.drop 2).drop
            (uint16BE (skx.headD 0) (skx.getD 1 0))).headD 0)
          (((skx.drop 2).drop
            (uint16BE (skx.headD 0) (skx.getD 1 0))).getD 1 0) := by
      simp only [List.length_drop]
      rw [← hp, ← hg]
      omega
    by_cases h5 : ((((skx.drop 2).drop
          (uint16BE (skx.headD 0) (skx.getD 1 0))).drop 2).drop
        (uint16BE (((skx.drop 2).drop
            (uint16BE (skx.headD 0) (skx.getD 1 0))).headD 0)
          (((skx.drop 2).drop
            (uint16BE (skx.headD 0) (skx.getD 1 0))).getD 1 0))).length < 2
    · simp only [dheProcessServerKeyExchange, if_neg h1, if_neg h2,
        if_neg h3, if_neg h4, if_pos h5]
      rw [hg, hp]
    · have h6 : (((((skx.drop 2).drop
              (uint16BE (skx.headD 0) (skx.getD 1 0))).drop 2).drop
            (uint16BE (((skx.drop 2).drop
                (uint16BE (skx.headD 0) (skx.getD 1 0))).headD 0)
              (((skx.drop 2).drop
                (uint16BE (skx.headD 0) (skx.getD 1 0))).getD 1 0))).drop
            2).length <
          uint16BE (((((skx.drop 2).drop
              (uint16BE (skx.headD 0) (skx.getD 1 0))).drop 2).drop
            (uint16BE (((skx.drop 2).drop
                (uint16BE (skx.headD 0) (skx.getD 1 0))).headD 0)
              (((skx.drop 2).drop
                (uint16BE (skx.headD 0) (skx.getD 1 0))).getD 1 0))).headD 0)
            (((((skx.drop 2).drop
              (uint16BE (skx.headD 0) (skx.getD 1 0))).drop 2).drop
            (uint16BE (((skx.drop 2).drop
                (uint16BE (skx.headD 0) (skx.getD 1 0))).headD 0)
              (((skx.drop 2).drop
                (uint16BE (skx.headD 0) (skx.getD 1 0))).getD 1 0))).getD
              1 0) := by
        simp only [List.length_drop]
        simp only [List.length_drop] at h5
        rw [← hp, ← hg] at h5 ⊢
        rw [← hy]
        omega
      simp only [dheProcessServerKeyExchange, if_neg h1, if_neg h2,
        if_neg h3, if_neg h4, if_neg h5, if_pos h6]
      rw [hg, hp]

/-- Witness for the amended C3: one message per truncation stage.
`[5]` has a short header (state untouched); `[0, 1, 5, 0]` is truncated at
the `g` length field (only `p = 5` written); `[0, 1, 23, 0, 1, 5, 0]` is
truncated at the `y` length field (`p = 23` and `g = 5` written). -/
theorem dheProcessServerKeyExchange_malformed_witness :
    (dheProcessServerKeyExchange false (fun _ _ => ([], none))
        ⟨none, none, none, none, none, none, none, none⟩ [5] =
      (⟨none, none, none, none, none, none, none, none⟩,
        .error errServerKeyExchange)) ∧
    (dheProcessServerKeyExchange false (fun _ _ => ([], none))
        ⟨none, none, none, none, none, none, none, none⟩ [0, 1, 5, 0] =
      ({ (⟨none, none, none, none, none, none, none, none⟩ :
          dheKeyAgreement) with
          p := some (bytesToNat (([0, 1, 5, 0].drop 2).take 1)) },
        .error errServerKeyExchange)) ∧
    (dheProcessServerKeyExchange false (fun _ _ => ([], none))
        ⟨none, none, none, none, none, none, none, none⟩
        [0, 1, 23, 0, 1, 5, 0] =
      ({ (⟨none, none, none, none, none, none, none, none⟩ :
          dheKeyAgreement) with
          p := some (bytesToNat (([0, 1, 23, 0, 1, 5, 0].drop 2).take 1)),
          g := some (bytesToNat
            (((([0, 1, 23, 0, 1, 5, 0].drop 2).drop 1).drop 2).take 1)) },
        .error errServerKeyExchange)) :=
  ⟨(dheProcessServerKeyExchange_malformed false (fun _ _ => ([], none))
      ⟨none, none, none, none, none, none, none, none⟩ [5] 1280 0 0
      (by decide) (by decide) (by decide)).1 (by decide),
    (dheProcessServerKeyExchange_malformed false (fun _ _ => ([], none))
      ⟨none, none, none, none, none, none, none, none⟩ [0, 1, 5, 0] 1 0 0
      (by decide) (by decide) (by decide)).2.1 (by decide) (by decide)
      (by decide),
    (dheProcessServerKeyExchange_malformed false (fun _ _ => ([], none))
      ⟨none, none, none, none, none, none, none, none⟩
      [0, 1, 23, 0, 1, 5, 0] 1 1 0 (by decide) (by decide) (by decide)).2.2
      (by decide) (by decide) (by decide) (by decide) (by decide)⟩

/-- Go's `strings.Split(s, ",")` on the character list of `s`. -/
def splitOnComma : List Char → List (List Char)
  | [] => [[]]
  | c :: rest =>
    if c = ',' then [] :: splitOnComma rest
    else
      match splitOnComma rest with
      | t :: ts => (c :: t) :: ts
      | [] => [[c]]

/-- `dheKeyAgreement.generateClientKeyExchange` (`key_agreement.go` lines
860-956).  `kexConfig` is `config.KexConfig` (compared whole, not split);
`genOracle k` stands for the value produced by the rejection-sampling loop
that raises random elements to `(p-1)/k` until the result is not one (its
randomness lives in the external RNG); `randX` is the draw of
`rand.Int(config.rand(), ka.p)` on the default path.  Returns the pre-master
secret, the mutated state and the ClientKeyExchange bytes. -/
def dheGenerateClientKeyExchange (kexConfig : List Char) (genOracle : Nat → Nat)
    (randX : Nat) (ka : dheKeyAgreement) :
    Except String (List Nat × dheKeyAgreement × List Nat) :=
  match ka.p, ka.g, ka.yTheirs with
  | some p, some g, some yTheirs =>
    let picked : Except String (Nat × Nat) :=
      if kexConfig = "0".data then .ok (0, 0)
      else if kexConfig = "1".data then .ok (1, 0)
      else if kexConfig = "pm1".data then .ok (p - 1, 0)
      else if kexConfig = "g3".data then
        if (p - 1) % 3 = 0 then .ok (genOracle 3, 0)
        else .error "order not divisible by 3"
      else if kexConfig = "g5".data then
        if (p - 1) % 5 = 0 then .ok (genOracle 5, 0)
        else .error "order not divisible by 5"
      else if kexConfig = "g7".data then
        if (p - 1) % 7 = 0 then .ok (genOracle 7, 0)
        else .error "order not divisible by 7"
      else .ok (g ^ randX % p, randX)
    match picked with
    | .error e => .error e
    | .ok (yOurs, xOurs) =>
      let preMasterSecret :=
        if kexConfig = "0".data ∨ kexConfig = "1".data ∨
            kexConfig = "pm1".data ∨ kexConfig = "g3".data ∨
            kexConfig = "g5".data ∨ kexConfig = "g7".data then
          natToBytesBE yOurs
        else natToBytesBE (yTheirs ^ randX % p)
      let ka1 := { ka with
        yOurs := some yOurs, xOurs := some xOurs, yClient := some yOurs }
      let yBytes := natToBytesBE yOurs
      let ckx := [yBytes.length / 256 % 256, yBytes.length % 256] ++ yBytes
      .ok (preMasterSecret, ka1, ckx)
  | _, _, _ => .error "missing ServerKeyExchange message"

/-! ## ECDHE key agreement (`ecdheKeyAgreement`, `key_agreement.go` lines
536-744) and the curve registry -/

/-- `ecdh.ECDHPublicKey` (`ecdh/ecdh.go`): `X` is always set by the code
paths modelled here, `Y` may be a nil pointer (Montgomery curves expose only
`X`). -/
structure ECDHPublicKey where
  X : Nat
  Y : Option Nat
deriving DecidableEq, Repr

/-- Modelled from the spec: the IANA named-group code points for the curve
identifiers used in `key_agreement.go` (the `CurveID` constants are declared
outside the provided sources; spec §4.3 and glossary). -/
def Curve25519 : Nat := 29

/-- Modelled from the spec: IANA code point of secp256r1 / NIST P-256. -/
def CurveP256r1 : Nat := 23

/-- Modelled from the spec: IANA code point of secp224r1 / NIST P-224. -/
def CurveP224r1 : Nat := 21

/-- Modelled from the spec: the curve identifiers handled by
`curveForCurveID` (`key_agreement.go` lines 317-360): the sect163k1/r1/r2,
secp160k1/r1/r2, secp192k1/r1, secp224k1/r1, secp256k1/r1, secp384r1,
secp521r1, brainpoolP256r1/P384r1/P512r1, X25519 and X448 groups, with their
IANA values. -/
def knownCurveIDs : List Nat :=
  [1, 2, 3, 15, 16, 17, 18, 19, 20, 21, 22, 23, 24, 25, 26, 27, 28, 29, 30]

/-- `curveForCurveID` succeeds exactly on the identifiers of the registry. -/
def curveForCurveID (id : Nat) : Bool :=
  knownCurveIDs.contains id

/-- The external `ecdh.Curve` implementations (`ecdh/ecdh.go` declares only
the interface; the per-curve code is outside the provided sources), indexed
by curve identifier.  `generateKey` consumes the caller-supplied RNG. -/
structure ECDHOracle where
  generateKey : Nat → Except String (List Nat × ECDHPublicKey)
  marshal : Nat → ECDHPublicKey → Bool → List Nat
  unmarshal : Nat → List Nat → Option ECDHPublicKey
  sharedSecret : Nat → List Nat → Option ECDHPublicKey → Except String (List Nat)

/-- State of `ecdheKeyAgreement`.  `hasCurve` models `ka.curve ≠ nil`. -/
structure ecdheKeyAgreement where
  hasCurve : Bool
  curveID : Nat
  privateKey : Option (List Nat)
  serverPublicKey : Option ECDHPublicKey
  clientPublicKey : Option ECDHPublicKey
  clientPrivKey : List Nat
  serverPrivKey : List Nat
  clientX : Option Nat
  clientY : Option Nat
  verifyError : Option String
deriving DecidableEq, Repr

/-- The mutable locals of the option loop in
`ecdheKeyAgreement.generateClientKeyExchange` (`key_agreement.go` lines
660-716): the `compress` and `staticKex` flags, the static payload `(mx, my)`
and the curve identifier field written by the static options. -/
structure kexOptionState where
  compress : Bool
  staticKex : Bool
  mx : Option Nat
  my : Option Nat
  curveID : Nat
deriving DecidableEq, Repr

/-- One iteration of the option loop (`key_agreement.go` lines 664-716):
the decimal payload literals are those of the source. -/
def applyKexOption (s : kexOptionState) (option : List Char) :
    Except String kexOptionState :=
  if option = "COMPRESS".data then .ok { s with compress := true }
  else if option = "X25519_INVALID_S2".data then
    .ok { s with mx := some 0, curveID := Curve25519, staticKex := true }
  else if option = "X25519_INVALID_S4".data then
    .ok { s with mx := some 1, curveID := Curve25519, staticKex := true }
  else if option = "X25519_INVALID_S8".data then
    .ok { s with
      mx := some 39382357235489614581723060781553021112529911719440698176882885853963445705823,
      curveID := Curve25519, staticKex := true }
  else if option = "X25519_TWIST_S4".data then
    .ok { s with
      mx := some 40037414119260815170158213804056845813451397265373646178320500467079007173856,
      curveID := Curve25519, staticKex := true }
  else if option = "256_ECP_INVALID_S5".data then
    .ok { s with
      mx := some 86765160823711241075790919525606906052464424178558764461827806608937748883041,
      my := some 62096069626295534024197897036720226401219594482857127378802405572766226928611,
      curveID := CurveP256r1, staticKex := true }
  else if option = "256_ECP_TWIST_S5".data then
    .ok { s with
      mx := some 65000580346672419638629453770715906531917592959616632823634978442784087859381,
      my := some 101434952638835666830672287755036482040135206184891409299575619037815517987306,
      curveID := CurveP256r1, staticKex := true }
  else if option = "256_ECP_TWIST_S5_SHARED".data then
    .ok { s with
      mx := some 75610932410248387784210576211184530780201393864652054865721797292564276389325,
      my := some 17016988387429062713000967549338170748423683329322284176365945285736516510233,
      curveID := CurveP256r1, staticKex := true }
  else if option = "224_ECP_INVALID_S13".data then
    .ok { s with
      mx := some 1234919426772886915432358412587735557527373236174597031415308881584,
      my := some 218592750580712164156183367176268299828628545379017213517316023994,
      curveID := CurveP224r1, staticKex := true }
  else if option = "224_ECP_TWIST_S11".data then
    .ok { s with
      mx := some 21219928721835262216070635629075256199931199995500865785214182108232,
      my := some 2486431965114139990348241493232938533843075669604960787364227498903,
      curveID := CurveP224r1, staticKex := true }
  else if option = "".data then .ok s
  else .error "unrecognized tls-kex-config option"

/-- The whole option loop: the `panic` on an unrecognized option aborts the
iteration (modelled as the error result). -/
def applyKexOptions (s : kexOptionState) :
    List (List Char) → Except String kexOptionState
  | [] => .ok s
  | opt :: rest =>
    match applyKexOption s opt with
    | .error e => .error e
    | .ok s' => applyKexOptions s' rest

/-- `ecdheKeyAgreement.generateClientKeyExchange` (`key_agreement.go` lines
651-744).  Returns the pre-master secret, the mutated state and the
ClientKeyExchange bytes. -/
def ecdheGenerateClientKeyExchange (o : ECDHOracle) (kexConfig : List Char)
    (ka : ecdheKeyAgreement) :
    Except String (List Nat × ecdheKeyAgreement × List Nat) :=
  if ¬ ka.hasCurve then .error "missing ServerKeyExchange message"
  else
    match applyKexOptions ⟨false, false, none, none, ka.curveID⟩
        (splitOnComma kexConfig) with
    | .error e => .error e
    | .ok s =>
      if s.staticKex then
        let mx := s.mx.getD 0
        let pub : ECDHPublicKey := ⟨mx, s.my⟩
        let ka1 := { ka with
          curveID := s.curveID, hasCurve := curveForCurveID s.curveID,
          privateKey := none, clientPublicKey := some pub }
        let serialized := o.marshal s.curveID pub s.compress
        .ok (natToBytesBE mx, ka1, serialized.length % 256 :: serialized)
      else
        match o.generateKey ka.curveID with
        | .error e => .error e
        | .ok (d, pub) =>
          let ka1 := { ka with
            privateKey := some d, clientPublicKey := some pub }
          match o.sharedSecret ka.curveID d ka.serverPublicKey with
          | .error e => .error e
          | .ok pms =>
            let serialized := o.marshal ka.curveID pub s.compress
            .ok (pms, ka1, serialized.length % 256 :: serialized)

/-- The curve-selection double loop of
`ecdheKeyAgreement.generateServerKeyExchange` (`key_agreement.go` lines
558-566): iterate the server preferences (outer) and the client's supported
curves (inner), stopping at the first preference the client also lists; the
zero value of `CurveID` is left in place when no candidate matches. -/
def selectCurve (preferredCurves clientCurves : List Nat) : Nat :=
  match preferredCurves with
  | [] => 0
  | candidate :: rest =>
    if clientCurves.contains candidate then candidate
    else selectCurve rest clientCurves

/-- `ecdheKeyAgreement.generateServerKeyExchange` (`key_agreement.go` lines
554-598).  `preferredCurves` is `config.curvePreferences()`, `clientCurves`
is `clientHello.supportedCurves`.  Returns the mutated state and the
`serverECDHParams` bytes handed to `auth.signParameters`, or the error. -/
def ecdheGenerateServerKeyExchange (o : ECDHOracle)
    (preferredCurves clientCurves : List Nat) (ka : ecdheKeyAgreement) :
    ecdheKeyAgreement × Except String (List Nat) :=
  let curveid := selectCurve preferredCurves clientCurves
  if curveid = 0 then (ka, .error "tls: no supported elliptic curves offered")
  else
    let ka1 := { ka with curveID := curveid }
    if ¬ curveForCurveID curveid then
      (ka1, .error "tls: preferredCurves includes unsupported curve")
    else
      let ka2 := { ka1 with hasCurve := true }
      match o.generateKey curveid with
      | .error e => (ka2, .error e)
      | .ok (d, pub) =>
        let ka3 := { ka2 with privateKey := some d, serverPrivKey := d }
        let ecdhePublic := o.marshal curveid pub false
        let serverECDHParams :=
          [3, curveid / 256 % 256, curveid % 256, ecdhePublic.length % 256] ++
            ecdhePublic
        (ka3, .ok serverECDHParams)

/-- `ecdheKeyAgreement.processServerKeyExchange` (`key_agreement.go` lines
618-649). -/
def ecdheProcessServerKeyExchange (insecure : Bool) (o : ECDHOracle)
    (verify : List Nat → List Nat → List Nat × Option String)
    (ka : ecdheKeyAgreement) (skx : List Nat) :
    ecdheKeyAgreement × Except String Unit :=
  if skx.length < 4 then (ka, .error errServerKeyExchange)
  else if skx.headD 0 ≠ 3 then
    (ka, .error "tls: server selected unsupported curve")
  else
    let curveid := uint16BE (skx.getD 1 0) (skx.getD 2 0)
    let ka1 := { ka with curveID := curveid }
    if ¬ curveForCurveID curveid then
      (ka1, .error "tls: server selected unsupported curve")
    else
      let ka2 := { ka1 with hasCurve := true }
      let publicLen := skx.getD 3 0
      if skx.length < publicLen + 4 then (ka2, .error errServerKeyExchange)
      else
        match o.unmarshal curveid ((skx.drop 4).take publicLen) with
        | none => (ka2, .error errServerKeyExchange)
        | some pub =>
          let ka3 := { ka2 with serverPublicKey := some pub }
          let params := skx.take (4 + publicLen)
          let sig := skx.drop (4 + publicLen)
          let verr := (verify params sig).2
          let ka4 := { ka3 with verifyError := verr }
          (ka4, if insecure then .ok ()
            else match verr with
            | none => .ok ()
            | some e => .error e)

/-- `rsaKeyAgreement.processServerKeyExchange` (`key_agreement.go` lines
113-160): only export-RSA (ephemeral) mode parses a ServerKeyExchange. -/
def rsaProcessServerKeyExchange (insecure : Bool)
    (verify : List Nat → List Nat → List Nat × Option String)
    (ka : rsaKeyAgreement) (skx : List Nat) :
    rsaKeyAgreement × Except String Unit :=
  if ¬ ka.ephemeral then (ka, .ok ())
  else if skx.length < 2 then (ka, .error errServerKeyExchange)
  else
    let modulusLen := uint16BE (skx.headD 0) (skx.getD 1 0)
    let k1 := skx.drop 2
    if k1.length < modulusLen then (ka, .error errServerKeyExchange)
    else
      let modulus := bytesToNat (k1.take modulusLen)
      let k2 := k1.drop modulusLen
      if k2.length < 2 then (ka, .error errServerKeyExchange)
      else
        let exponentLength := uint16BE (k2.headD 0) (k2.getD 1 0)
        let k3 := k2.drop 2
        if k3.length < exponentLength ∨ 4 < exponentLength then
          (ka, .error errServerKeyExchange)
        else
          let exponent := bytesToNat (k3.take exponentLength)
          let ka1 := { ka with publicKey := some (modulus, exponent) }
          let paramsLen := 2 + exponentLength + 2 + modulusLen
          let params := skx.take paramsLen
          let sig := skx.drop paramsLen
          let verr := (verify params sig).2
          let ka2 := { ka1 with verifyError := verr }
          (ka2, if insecure then .ok ()
            else match verr with
            | none => .ok ()
            | some e => .error e)

/-- A degenerate curve oracle for concrete instantiations: key generation
and shared-secret computation are unavailable, marshalling emits the X
coordinate in minimal big-endian form (as the Montgomery curves do). -/
def nullECDHOracle : ECDHOracle where
  generateKey := fun _ => .error "unavailable"
  marshal := fun _ pub _ => natToBytesBE pub.X
  unmarshal := fun _ _ => none
  sharedSecret := fun _ _ _ => .error "unavailable"

/-- A freshly constructed `ecdheKeyAgreement` (all fields zero values). -/
def emptyECDHE : ecdheKeyAgreement :=
  ⟨false, 0, none, none, none, [], [], none, none, none⟩

lemma selectCurve_eq_zero (preferredCurves clientCurves : List Nat)
    (h : ∀ c ∈ preferredCurves, c ∈ clientCurves → c = 0) :
    selectCurve preferredCurves clientCurves = 0 := by
  induction preferredCurves with
  | nil => rfl
  | cons c rest ih =>
    by_cases hm : c ∈ clientCurves
    · have h0 : c = 0 := h c (by simp) hm
      subst h0
      simp [selectCurve, hm]
    · simp only [selectCurve]
      rw [if_neg (by simpa [List.contains, List.elem_iff] using hm)]
      exact ih fun x hx hmm => h x (by simp [hx]) hmm

lemma selectCurve_first (clientCurves pre post : List Nat) (c : Nat)
    (hc : c ∈ clientCurves) (hpre : ∀ x ∈ pre, x ∉ clientCurves) :
    selectCurve (pre ++ c :: post) clientCurves = c := by
  induction pre with
  | nil => simp [selectCurve, hc]
  | cons x rest ih =>
    have hx : x ∉ clientCurves := hpre x (by simp)
    simp only [List.cons_append, selectCurve]
    rw [if_neg (by simpa [List.contains, List.elem_iff] using hx)]
    exact ih fun y hy => hpre y (by simp [hy])

/-- **C10.** `ecdheKeyAgreement.generateServerKeyExchange` uses `CurveID` 0
as an internal no-curve-selected sentinel: whenever every curve common to the
preference list and the client list is the ID 0, the operation fails with
`no supported elliptic curves offered`, exactly as if the lists were
disjoint, so curve ID 0 can never be negotiated. -/
theorem ecdheGenerateServerKeyExchange_zero_sentinel (o : ECDHOracle)
    (preferredCurves clientCurves : List Nat) (ka : ecdheKeyAgreement)
    (h : ∀ c ∈ preferredCurves, c ∈ clientCurves → c = 0) :
    (ecdheGenerateServerKeyExchange o preferredCurves clientCurves ka).2 =
      .error "tls: no supported elliptic curves offered" := by
  have hz := selectCurve_eq_zero preferredCurves clientCurves h
  simp [ecdheGenerateServerKeyExchange, hz]

/-- Witness for C10: preferences `[0, 1]`, client list `[0, 2]` — the only
common ID is 0, and both sides advertise it. -/
theorem ecdheGenerateServerKeyExchange_zero_sentinel_witness :
    (ecdheGenerateServerKeyExchange nullECDHOracle [0, 1] [0, 2]
        emptyECDHE).2 =
      .error "tls: no supported elliptic curves offered" :=
  ecdheGenerateServerKeyExchange_zero_sentinel nullECDHOracle [0, 1] [0, 2]
    emptyECDHE (by decide)

/-- Counterexample for C8: with preferences `[0, 23]` and client curves
`[0, 23]`, the first server-preferred curve the client also supports is the
ID 0, and the lists are *not* disjoint (the registered curve 23 is in both),
yet the operation fails with `no supported elliptic curves offered` instead
of selecting a curve. -/
theorem ecdheGenerateServerKeyExchange_curve0_cex :
    ((ecdheGenerateServerKeyExchange nullECDHOracle [0, 23] [0, 23]
        emptyECDHE).2 =
      .error "tls: no supported elliptic curves offered") ∧
    (23 : Nat) ∈ [0, 23] ∧ curveForCurveID 23 = true :=
  ⟨rfl, by decide, by decide⟩

/-- **C8 (amended).** `ecdheKeyAgreement.generateServerKeyExchange` selects
the curve by iterating `config.curvePreferences()` in server order (outer
loop) and `clientHello.supportedCurves` (inner loop): when the first
server-preferred curve the client also supports is nonzero it becomes the
negotiated `curveID`; when the lists are disjoint — and also when that first
common identifier is the sentinel value 0 — the operation fails with
`no supported elliptic curves offered`. -/
theorem ecdheGenerateServerKeyExchange_selection (o : ECDHOracle)
    (preferredCurves clientCurves : List Nat) (ka : ecdheKeyAgreement) :
    ((∀ c ∈ preferredCurves, c ∉ clientCurves) →
      (ecdheGenerateServerKeyExchange o preferredCurves clientCurves ka).2 =
        .error "tls: no supported elliptic curves offered") ∧
    (∀ pre c post, preferredCurves = pre ++ c :: post → c ∈ clientCurves →
      (∀ x ∈ pre, x ∉ clientCurves) →
      ((c = 0 →
        (ecdheGenerateServerKeyExchange o preferredCurves clientCurves ka).2 =
          .error "tls: no supported elliptic curves offered") ∧
       (c ≠ 0 →
        (ecdheGenerateServerKeyExchange o preferredCurves clientCurves
          ka).1.curveID = c))) := by
  constructor
  · intro hdisj
    have hz : selectCurve preferredCurves clientCurves = 0 :=
      selectCurve_eq_zero _ _ fun c hc hm => absurd hm (hdisj c hc)
    simp [ecdheGenerateServerKeyExchange, hz]
  · intro pre c post hdec hc hpre
    subst hdec
    have hsel : selectCurve (pre ++ c :: post) clientCurves = c :=
      selectCurve_first _ _ _ _ hc hpre
    constructor
    · intro h0
      subst h0
      simp [ecdheGenerateServerKeyExchange, hsel]
    · intro hne
      unfold ecdheGenerateServerKeyExchange
      rw [hsel, if_neg hne]
      by_cases hk : curveForCurveID c
      · rcases hgen : o.generateKey c with e | ⟨d, pub⟩ <;> simp [hk, hgen]
      · simp [hk]

/-- Witness for the amended C8: preferences `[24, 23]`, client curves
`[23]`: the first common curve is 23 and it becomes the negotiated
`curveID`. -/
theorem ecdheGenerateServerKeyExchange_selection_witness :
    (ecdheGenerateServerKeyExchange nullECDHOracle [24, 23] [23]
        emptyECDHE).1.curveID = 23 :=
  (((ecdheGenerateServerKeyExchange_selection nullECDHOracle [24, 23] [23]
      emptyECDHE).2) [24] 23 [] rfl (by decide) (by decide)).2 (by decide)

/-- A curve oracle whose `Unmarshal` decodes any byte string as an X-only
point (as the Montgomery implementations do). -/
def xOnlyECDHOracle : ECDHOracle :=
  { nullECDHOracle with unmarshal := fun _ bs => some ⟨bytesToNat bs, none⟩ }

/-- **C7.** For every key-agreement variant (RSA ephemeral, ECDHE, DHE),
`processServerKeyExchange` stores the result of the
`verifyParameters` collaborator in the `verifyError` field of the state
object rather than returning it directly, and returns no error whenever
`config.InsecureSkipVerify` is true: a signature-verification failure never
aborts the handshake in insecure-skip-verify mode but is still recorded.
The hypotheses state that the wire format of the message parses (the split
`params ++ sig = skx` exhibits the parameter/signature decomposition handed
to the collaborator). -/
theorem processServerKeyExchange_verifyError_spec (insecure : Bool)
    (verify : List Nat → List Nat → List Nat × Option String) :
    (∀ (ka : rsaKeyAgreement) (skx : List Nat) (mLen eLen : Nat),
      ka.ephemeral = true →
      mLen = uint16BE (skx.headD 0) (skx.getD 1 0) →
      eLen = uint16BE (((skx.drop 2).drop mLen).headD 0)
        (((skx.drop 2).drop mLen).getD 1 0) →
      2 ≤ skx.length → mLen ≤ skx.length - 2 →
      2 ≤ skx.length - 2 - mLen → eLen ≤ skx.length - 4 - mLen → eLen ≤ 4 →
      ∃ params sig, params ++ sig = skx ∧
        (rsaProcessServerKeyExchange insecure verify ka skx).1.verifyError =
          (verify params sig).2 ∧
        (insecure = true →
          (rsaProcessServerKeyExchange insecure verify ka skx).2 = .ok ())) ∧
    (∀ (o : ECDHOracle) (ka : ecdheKeyAgreement) (skx : List Nat)
        (pub : ECDHPublicKey),
      4 ≤ skx.length → skx.headD 0 = 3 →
      curveForCurveID (uint16BE (skx.getD 1 0) (skx.getD 2 0)) = true →
      skx.getD 3 0 + 4 ≤ skx.length →
      o.unmarshal (uint16BE (skx.getD 1 0) (skx.getD 2 0))
        ((skx.drop 4).take (skx.getD 3 0)) = some pub →
      ∃ params sig, params ++ sig = skx ∧
        (ecdheProcessServerKeyExchange insecure o verify ka skx).1.verifyError =
          (verify params sig).2 ∧
        (insecure = true →
          (ecdheProcessServerKeyExchange insecure o verify ka skx).2 =
            .ok ())) ∧
    (∀ (ka : dheKeyAgreement) (skx : List Nat) (pLen gLen yLen : Nat),
      pLen = uint16BE (skx.headD 0) (skx.getD 1 0) →
      gLen = uint16BE (((skx.drop 2).drop pLen).headD 0)
        (((skx.drop 2).drop pLen).getD 1 0) →
      yLen = uint16BE (((((skx.drop 2).drop pLen).drop 2).drop gLen).headD 0)
        (((((skx.drop 2).drop pLen).drop 2).drop gLen).getD 1 0) →
      2 ≤ skx.length → pLen ≤ skx.length - 2 →
      2 ≤ skx.length - 2 - pLen → gLen ≤ skx.length - 4 - pLen →
      2 ≤ skx.length - 4 - pLen - gLen →
      yLen ≤ skx.length - 6 - pLen - gLen →
      0 < bytesToNat
        ((((((skx.drop 2).drop pLen).drop 2).drop gLen).drop 2).take yLen) →
      bytesToNat
        ((((((skx.drop 2).drop pLen).drop 2).drop gLen).drop 2).take yLen) <
        bytesToNat ((skx.drop 2).take pLen) →
      ∃ params sig, params ++ sig = skx ∧
        (dheProcessServerKeyExchange insecure verify ka skx).1.verifyError =
          (verify params sig).2 ∧
        (insecure = true →
          (dheProcessServerKeyExchange insecure verify ka skx).2 = .ok ())) := by
  refine ⟨?_, ?_, ?_⟩
  · intro ka skx mLen eLen heph hm he h1 h2 h3 h4 h5
    have hkey : (rsaProcessServerKeyExchange insecure verify ka skx).1.verifyError =
        (verify (skx.take (2 + eLen + 2 + mLen))
          (skx.drop (2 + eLen + 2 + mLen))).2 ∧
        (insecure = true →
          (rsaProcessServerKeyExchange insecure verify ka skx).2 = .ok ()) := by
      simp only [rsaProcessServerKeyExchange]
      split
      · rename_i h
        exact absurd heph h
      split
      · rename_i h
        exfalso; omega
      split
      · rename_i h
        exfalso; simp only [List.length_drop, ← hm] at h; omega
      split
      · rename_i h
        exfalso; simp only [List.length_drop, ← hm] at h; omega
      split
      · rename_i h
        exfalso; simp only [List.length_drop, ← hm, ← he] at h; omega
      refine ⟨?_, fun hins => ?_⟩
      · simp only [← hm, ← he]
      · rw [if_pos hins]
    exact ⟨skx.take (2 + eLen + 2 + mLen), skx.drop (2 + eLen + 2 + mLen),
      List.take_append_drop _ _, hkey.1, hkey.2⟩
  · intro o ka skx pub h1 h2 h3 h4 h5
    have hkey : (ecdheProcessServerKeyExchange insecure o verify ka
          skx).1.verifyError =
        (verify (skx.take (4 + skx.getD 3 0)) (skx.drop (4 + skx.getD 3 0))).2 ∧
        (insecure = true →
          (ecdheProcessServerKeyExchange insecure o verify ka skx).2 =
            .ok ()) := by
      simp only [ecdheProcessServerKeyExchange, h5]
      split
      · rename_i h
        exfalso; omega
      split
      · rename_i h
        exact absurd h2 h
      split
      · rename_i h
        exfalso; omega
      refine ⟨rfl, fun hins => ?_⟩
      rw [if_pos hins]
    exact ⟨skx.take (4 + skx.getD 3 0), skx.drop (4 + skx.getD 3 0),
      List.take_append_drop _ _, hkey.1, hkey.2⟩
  · intro ka skx pLen gLen yLen hp hg hy h1 h2 h3 h4 h5 h6 hy0 hyp
    have hsig : (((((skx.drop 2).drop pLen).drop 2).drop gLen).drop 2).drop
        yLen = skx.drop (2 + pLen + 2 + gLen + 2 + yLen) := by
      simp only [List.drop_drop]
    have hkey : (dheProcessServerKeyExchange insecure verify ka
          skx).1.verifyError =
        (verify (skx.take (2 + pLen + 2 + gLen + 2 + yLen))
          (skx.drop (2 + pLen + 2 + gLen + 2 + yLen))).2 ∧
        (insecure = true →
          (dheProcessServerKeyExchange insecure verify ka skx).2 = .ok ()) := by
      simp only [dheProcessServerKeyExchange]
      split
      · rename_i h
        exfalso; omega
      split
      · rename_i h
        exfalso; simp only [List.length_drop, ← hp] at h; omega
      split
      · rename_i h
        exfalso; simp only [List.length_drop, ← hp] at h; omega
      split
      · rename_i h
        exfalso; simp only [List.length_drop, ← hp, ← hg] at h; omega
      split
      · rename_i h
        exfalso; simp only [List.length_drop, ← hp, ← hg] at h; omega
      split
      · rename_i h
        exfalso; simp only [List.length_drop, ← hp, ← hg, ← hy] at h; omega
      split
      · rename_i h
        exfalso
        simp only [← hp, ← hg, ← hy] at h
        rcases h with h | h
        · omega
        · omega
      refine ⟨?_, fun hins => ?_⟩
      · simp only [← hp, ← hg, ← hy, hsig, List.length_drop]
        rw [show skx.length - (skx.length -
          (2 + pLen + 2 + gLen + 2 + yLen)) =
          2 + pLen + 2 + gLen + 2 + yLen from by omega]
      · rw [if_pos hins]
    exact ⟨skx.take (2 + pLen + 2 + gLen + 2 + yLen),
      skx.drop (2 + pLen + 2 + gLen + 2 + yLen),
      List.take_append_drop _ _, hkey.1, hkey.2⟩


/-- Witness for C7: `InsecureSkipVerify = true` and a verification
collaborator that always fails with `"boom"`; for each variant the failure
is recorded in `verifyError` while the operation returns no error.
RSA message: modulus `[5]`, exponent `[3]`; ECDHE message: named curve 29,
1-byte point `[7]`; DHE message: `p = 23`, `g = 5`, `y = 2`. -/
theorem processServerKeyExchange_verifyError_spec_witness :
    (∃ params sig, params ++ sig = [0, 1, 5, 0, 1, 3] ∧
      (rsaProcessServerKeyExchange true (fun _ _ => ([], some "boom"))
        ⟨0x0303, 0, true, none, none⟩ [0, 1, 5, 0, 1, 3]).1.verifyError =
        some "boom" ∧
      (true = true →
        (rsaProcessServerKeyExchange true (fun _ _ => ([], some "boom"))
          ⟨0x0303, 0, true, none, none⟩ [0, 1, 5, 0, 1, 3]).2 = .ok ())) ∧
    (∃ params sig, params ++ sig = [3, 0, 29, 1, 7] ∧
      (ecdheProcessServerKeyExchange true xOnlyECDHOracle
        (fun _ _ => ([], some "boom")) emptyECDHE
        [3, 0, 29, 1, 7]).1.verifyError = some "boom" ∧
      (true = true →
        (ecdheProcessServerKeyExchange true xOnlyECDHOracle
          (fun _ _ => ([], some "boom")) emptyECDHE
          [3, 0, 29, 1, 7]).2 = .ok ())) ∧
    (∃ params sig, params ++ sig = [0, 1, 23, 0, 1, 5, 0, 1, 2] ∧
      (dheProcessServerKeyExchange true (fun _ _ => ([], some "boom"))
        ⟨none, none, none, none, none, none, none, none⟩
        [0, 1, 23, 0, 1, 5, 0, 1, 2]).1.verifyError = some "boom" ∧
      (true = true →
        (dheProcessServerKeyExchange true (fun _ _ => ([], some "boom"))
          ⟨none, none, none, none, none, none, none, none⟩
          [0, 1, 23, 0, 1, 5, 0, 1, 2]).2 = .ok ())) := by
  refine ⟨?_, ?_, ?_⟩
  · exact (processServerKeyExchange_verifyError_spec true
      (fun _ _ => ([], some "boom"))).1 ⟨0x0303, 0, true, none, none⟩
      [0, 1, 5, 0, 1, 3] 1 1 rfl rfl rfl (by decide) (by decide) (by decide)
      (by decide) (by decide)
  · exact (processServerKeyExchange_verifyError_spec true
      (fun _ _ => ([], some "boom"))).2.1 xOnlyECDHOracle emptyECDHE
      [3, 0, 29, 1, 7] ⟨7, none⟩ (by decide) rfl (by decide) (by decide) rfl
  · exact (processServerKeyExchange_verifyError_spec true
      (fun _ _ => ([], some "boom"))).2.2
      ⟨none, none, none, none, none, none, none, none⟩
      [0, 1, 23, 0, 1, 5, 0, 1, 2] 1 1 1 rfl rfl rfl (by decide) (by decide)
      (by decide) (by decide) (by decide) (by decide) (by decide) (by decide)

/-- The static payload options of
`ecdheKeyAgreement.generateClientKeyExchange` with their effect on the option
state: `(token, curve identifier, X, Y)` (`key_agreement.go` lines
668-711). -/
def staticKexPayloads : List (List Char × Nat × Nat × Option Nat) :=
  [("X25519_INVALID_S2".data, Curve25519, 0, none),
   ("X25519_INVALID_S4".data, Curve25519, 1, none),
   ("X25519_INVALID_S8".data, Curve25519,
     39382357235489614581723060781553021112529911719440698176882885853963445705823,
     none),
   ("X25519_TWIST_S4".data, Curve25519,
     40037414119260815170158213804056845813451397265373646178320500467079007173856,
     none),
   ("256_ECP_INVALID_S5".data, CurveP256r1,
     86765160823711241075790919525606906052464424178558764461827806608937748883041,
     some 62096069626295534024197897036720226401219594482857127378802405572766226928611),
   ("256_ECP_TWIST_S5".data, CurveP256r1,
     65000580346672419638629453770715906531917592959616632823634978442784087859381,
     some 101434952638835666830672287755036482040135206184891409299575619037815517987306),
   ("256_ECP_TWIST_S5_SHARED".data, CurveP256r1,
     75610932410248387784210576211184530780201393864652054865721797292564276389325,
     some 17016988387429062713000967549338170748423683329322284176365945285736516510233),
   ("224_ECP_INVALID_S13".data, CurveP224r1,
     1234919426772886915432358412587735557527373236174597031415308881584,
     some 218592750580712164156183367176268299828628545379017213517316023994),
   ("224_ECP_TWIST_S11".data, CurveP224r1,
     21219928721835262216070635629075256199931199995500865785214182108232,
     some 2486431965114139990348241493232938533843075669604960787364227498903)]

lemma applyKexOptions_static (t : List Char) (cid x : Nat) (my : Option Nat)
    (c0 : Nat) (hmem : (t, cid, x, my) ∈ staticKexPayloads) :
    applyKexOptions ⟨false, false, none, none, c0⟩ (splitOnComma t) =
      .ok ⟨false, true, some x, my, cid⟩ := by
  simp only [staticKexPayloads, List.mem_cons, List.not_mem_nil, or_false,
    Prod.mk.injEq] at hmem
  rcases hmem with ⟨rfl, rfl, rfl, rfl⟩ | ⟨rfl, rfl, rfl, rfl⟩ |
    ⟨rfl, rfl, rfl, rfl⟩ | ⟨rfl, rfl, rfl, rfl⟩ | ⟨rfl, rfl, rfl, rfl⟩ |
    ⟨rfl, rfl, rfl, rfl⟩ | ⟨rfl, rfl, rfl, rfl⟩ | ⟨rfl, rfl, rfl, rfl⟩ |
    ⟨rfl, rfl, rfl, rfl⟩ <;> rfl

lemma ecdheGenerateClientKeyExchange_static_of_apply (o : ECDHOracle)
    (kexConfig : List Char) (ka : ecdheKeyAgreement) (s : kexOptionState)
    (x : Nat) (hc : ka.hasCurve = true)
    (happ : applyKexOptions ⟨false, false, none, none, ka.curveID⟩
      (splitOnComma kexConfig) = .ok s)
    (hstatic : s.staticKex = true) (hmx : s.mx = some x) :
    ecdheGenerateClientKeyExchange o kexConfig ka =
      .ok (natToBytesBE x,
        { ka with
          curveID := s.curveID, hasCurve := curveForCurveID s.curveID,
          privateKey := none, clientPublicKey := some ⟨x, s.my⟩ },
        (o.marshal s.curveID ⟨x, s.my⟩ s.compress).length % 256 ::
          o.marshal s.curveID ⟨x, s.my⟩ s.compress) := by
  simp only [ecdheGenerateClientKeyExchange, hc, happ, hstatic, hmx,
    not_true, Option.getD_some, if_true, ite_true, if_false, ite_false]

/-- Counterexample for C2: with `KexConfig = "X25519_INVALID_S2"` the
pre-master secret produced by `ecdheKeyAgreement.generateClientKeyExchange`
is `big.Int(0).Bytes()`, which is the **empty** byte string, not the single
byte `0x00`. -/
theorem ecdheGenerateClientKeyExchange_invalidS2_cex :
    (ecdheGenerateClientKeyExchange nullECDHOracle "X25519_INVALID_S2".data
        ⟨true, Curve25519, none, none, none, [], [], none, none, none⟩ =
      .ok (([] : List Nat),
        ⟨true, Curve25519, none, none, some ⟨0, none⟩, [], [], none, none,
          none⟩,
        [0])) ∧
    ([] : List Nat) ≠ [0x00] :=
  ⟨rfl, by decide⟩

/-- **C2 (amended).** For `ecdheKeyAgreement.generateClientKeyExchange` with
`Config.KexConfig` equal to a static-payload token, no private key is
generated, no ECDH computation is performed (the result does not depend on
the oracle's key-generation or shared-secret functions), and the returned
pre-master secret is the minimal big-endian serialization of the payload's
X coordinate; specifically for `X25519_INVALID_S2` the payload is `X = 0`
and the pre-master secret is the **empty** byte string (`big.Int(0).Bytes()`),
not a single zero byte. -/
theorem ecdheGenerateClientKeyExchange_static_payload (t : List Char)
    (cid x : Nat) (my : Option Nat) (o : ECDHOracle) (ka : ecdheKeyAgreement)
    (hmem : (t, cid, x, my) ∈ staticKexPayloads) (hc : ka.hasCurve = true) :
    ecdheGenerateClientKeyExchange o t ka =
      .ok (natToBytesBE x,
        { ka with
          curveID := cid, hasCurve := curveForCurveID cid,
          privateKey := none, clientPublicKey := some ⟨x, my⟩ },
        (o.marshal cid ⟨x, my⟩ false).length % 256 ::
          o.marshal cid ⟨x, my⟩ false) :=
  ecdheGenerateClientKeyExchange_static_of_apply o t ka
    ⟨false, true, some x, my, cid⟩ x hc
    (applyKexOptions_static t cid x my ka.curveID hmem) rfl rfl

/-- Witness for the amended C2: the `X25519_INVALID_S2` instance on a state
that has processed a ServerKeyExchange. -/
theorem ecdheGenerateClientKeyExchange_static_payload_witness :
    ecdheGenerateClientKeyExchange nullECDHOracle "X25519_INVALID_S2".data
      ⟨true, 29, none, none, none, [], [], none, none, none⟩ =
      .ok (natToBytesBE 0,
        { (⟨true, 29, none, none, none, [], [], none, none, none⟩ :
            ecdheKeyAgreement) with
          curveID := Curve25519, hasCurve := curveForCurveID Curve25519,
          privateKey := none, clientPublicKey := some ⟨0, none⟩ },
        (nullECDHOracle.marshal Curve25519 ⟨0, none⟩ false).length % 256 ::
          nullECDHOracle.marshal Curve25519 ⟨0, none⟩ false) :=
  ecdheGenerateClientKeyExchange_static_payload "X25519_INVALID_S2".data
    Curve25519 0 none nullECDHOracle
    ⟨true, 29, none, none, none, [], [], none, none, none⟩
    (List.mem_cons_self _ _) rfl

/-- The `KexConfig` tokens recognized by the ECDHE option loop
(`key_agreement.go` lines 664-715), the empty token included. -/
def ecdheKexTokens : List (List Char) :=
  ["COMPRESS".data, "X25519_INVALID_S2".data, "X25519_INVALID_S4".data,
   "X25519_INVALID_S8".data, "X25519_TWIST_S4".data,
   "256_ECP_INVALID_S5".data, "256_ECP_TWIST_S5".data,
   "256_ECP_TWIST_S5_SHARED".data, "224_ECP_INVALID_S13".data,
   "224_ECP_TWIST_S11".data, "".data]

/-- The `KexConfig` values with dedicated DHE behaviour
(`key_agreement.go` lines 869-940). -/
def dheKexTokens : List (List Char) :=
  ["0".data, "1".data, "pm1".data, "g3".data, "g5".data, "g7".data]

lemma applyKexOption_unknown (s : kexOptionState) (t : List Char)
    (h : t ∉ ecdheKexTokens) :
    applyKexOption s t = .error "unrecognized tls-kex-config option" := by
  simp only [ecdheKexTokens, List.mem_cons, List.not_mem_nil, or_false,
    not_or] at h
  obtain ⟨h1, h2, h3, h4, h5, h6, h7, h8, h9, h10, h11⟩ := h
  simp only [applyKexOption, if_neg h1, if_neg h2, if_neg h3, if_neg h4,
    if_neg h5, if_neg h6, if_neg h7, if_neg h8, if_neg h9, if_neg h10,
    if_neg h11]

/-- Counterexample for C4: `KexConfig = "bogus"` is not an enumerated token,
yet `dheKeyAgreement.generateClientKeyExchange` (state `p = 23`, `g = 5`,
`yTheirs = 2`, random exponent 3) does **not** fail: it runs the default
random-exponent path and succeeds. -/
theorem kexConfigUnknownToken_dhe_cex :
    dheGenerateClientKeyExchange "bogus".data (fun _ => 0) 3
      ⟨some 23, some 5, some 2, none, none, none, none, none⟩ =
      .ok ([8],
        ⟨some 23, some 5, some 2, some 10, some 3, none, some 10, none⟩,
        [0, 1, 10]) ∧
    "bogus".data ∉ dheKexTokens ∧ "bogus".data ∉ ecdheKexTokens :=
  ⟨rfl, by decide, by decide⟩

/-- **C4 (amended).** A `Config.KexConfig` token outside the enumerated sets
is fatal only for the ECDHE variant (`panic: unrecognized tls-kex-config
option` at client-key-exchange generation time).  The DHE variant treats
every value other than the six enumerated tokens — unknown tokens included —
as the default configuration: it draws a random exponent and completes the
exchange without error. -/
theorem kexConfigUnknownToken_spec (t : List Char) :
    (t ∉ ecdheKexTokens → splitOnComma t = [t] →
      ∀ (o : ECDHOracle) (ka : ecdheKeyAgreement), ka.hasCurve = true →
      ecdheGenerateClientKeyExchange o t ka =
        .error "unrecognized tls-kex-config option") ∧
    (t ∉ dheKexTokens →
      ∀ (genOracle : Nat → Nat) (randX : Nat) (ka : dheKeyAgreement)
        (p g y : Nat), ka.p = some p → ka.g = some g → ka.yTheirs = some y →
      dheGenerateClientKeyExchange t genOracle randX ka =
        .ok (natToBytesBE (y ^ randX % p),
          { ka with
            yOurs := some (g ^ randX % p), xOurs := some randX,
            yClient := some (g ^ randX % p) },
          [(natToBytesBE (g ^ randX % p)).length / 256 % 256,
           (natToBytesBE (g ^ randX % p)).length % 256] ++
            natToBytesBE (g ^ randX % p))) := by
  constructor
  · intro hnot hsplit o ka hc
    have happ : applyKexOptions ⟨false, false, none, none, ka.curveID⟩
        (splitOnComma t) = .error "unrecognized tls-kex-config option" := by
      rw [hsplit]
      simp only [applyKexOptions, applyKexOption_unknown _ t hnot]
    simp only [ecdheGenerateClientKeyExchange, hc, happ, not_true,
      ite_false, if_false, Bool.not_eq_true]
  · intro hnot genOracle randX ka p g y hp hg hy
    simp only [dheKexTokens, List.mem_cons, List.not_mem_nil, or_false,
      not_or] at hnot
    obtain ⟨h1, h2, h3, h4, h5, h6⟩ := hnot
    simp only [dheGenerateClientKeyExchange, hp, hg, hy, if_neg h1, if_neg h2,
      if_neg h3, if_neg h4, if_neg h5, if_neg h6]
    rw [if_neg (by simp [h1, h2, h3, h4, h5, h6])]

/-- Witness for the amended C4: the token `"nope"` on both variants. -/
theorem kexConfigUnknownToken_spec_witness :
    (ecdheGenerateClientKeyExchange nullECDHOracle "nope".data
        ⟨true, 29, none, none, none, [], [], none, none, none⟩ =
      .error "unrecognized tls-kex-config option") ∧
    (dheGenerateClientKeyExchange "nope".data (fun _ => 0) 3
        ⟨some 23, some 5, some 2, none, none, none, none, none⟩ =
      .ok (natToBytesBE (2 ^ 3 % 23),
        { (⟨some 23, some 5, some 2, none, none, none, none, none⟩ :
            dheKeyAgreement) with
          yOurs := some (5 ^ 3 % 23), xOurs := some 3,
          yClient := some (5 ^ 3 % 23) },
        [(natToBytesBE (5 ^ 3 % 23)).length / 256 % 256,
         (natToBytesBE (5 ^ 3 % 23)).length % 256] ++
          natToBytesBE (5 ^ 3 % 23))) :=
  ⟨(kexConfigUnknownToken_spec "nope".data).1 (by decide) rfl nullECDHOracle
      ⟨true, 29, none, none, none, [], [], none, none, none⟩ rfl,
    (kexConfigUnknownToken_spec "nope".data).2 (by decide) (fun _ => 0) 3
      ⟨some 23, some 5, some 2, none, none, none, none, none⟩ 23 5 2
      rfl rfl rfl⟩

end ZTLS
